import Mathlib

/-!
Shallow embedding of the PNS protocol client in src/main.py
(PATLITE LR5-LAN example): frame encoding, response validation,
status decoding, and the command-line dispatch of main().

Conventions:
- Python `bytes` values are `List Nat` whose entries are byte values.
- Python exceptions are the error side of `Except PnsError`.
- The transport is external: each command function takes the raw reply
  bytes that `_sock.recv(1024)` returned as an explicit argument.
-/

/-- Error kinds of the embedded Python code. -/
inductive PnsError where
  /-- ValueError raised with the message "negative acknowledge"
      when a reply's first byte is NAK (main.py lines 250-251, 271-272, 298-299). -/
  | negativeAcknowledge
  /-- IndexError from indexing a bytes value out of range
      (a reply too short for the requested byte); the spec calls this
      situation IncompleteResponse. -/
  | indexError
  /-- struct.error from struct.pack when a value does not fit the
      format (format 'B' requires 0 <= value <= 255). -/
  | structError
  /-- ValueError from int() applied to a non-numeric argument string. -/
  | valueError
  /-- OSError family from the socket layer (e.g. ConnectionRefusedError
      raised by _sock.connect); the spec calls this TransportError. -/
  | osError
deriving DecidableEq, Repr

/-- Python bytes indexing `data[i]`: the byte at offset `i`,
    IndexError when `i` is out of range. -/
def bytesGet (data : List Nat) (i : Nat) : Except PnsError Nat :=
  match data.get? i with
  | some b => Except.ok b
  | none => Except.error PnsError.indexError

/-- Python full-slice copy `data[:]`. -/
def bytesSliceAll (data : List Nat) : List Nat :=
  data.take data.length

/-- struct.pack format character 'B' (one unsigned byte):
    struct.error unless 0 <= v <= 255, else the byte itself. -/
def packB (v : Int) : Except PnsError Nat :=
  if 0 ≤ v ∧ v ≤ 255 then Except.ok v.toNat else Except.error PnsError.structError

/-- struct.pack of the frame header with format '>2ssxH':
    2 bytes product id, 1 byte command, 1 pad byte 0x00, big-endian
    unsigned 16-bit data size. Every call site in main.py passes the
    literal size 0 or 6, well inside the range of 'H'. -/
def pack_2ssxH (product_id : List Nat) (command : Nat) (data_size : Nat) : List Nat :=
  product_id ++ [command, 0x00, data_size / 256 % 256, data_size % 256]

/-- PNS_PRODUCT_ID = b'AB' (main.py line 7). -/
def PNS_PRODUCT_ID : List Nat := [0x41, 0x42]

/-- PNS_RUN_CONTROL_COMMAND = b'S' (main.py line 11). -/
def PNS_RUN_CONTROL_COMMAND : Nat := 0x53

/-- PNS_CLEAR_COMMAND = b'C' (main.py line 13). -/
def PNS_CLEAR_COMMAND : Nat := 0x43

/-- PNS_GET_DATA_COMMAND = b'G' (main.py line 15). -/
def PNS_GET_DATA_COMMAND : Nat := 0x47

/-- PNS_ACK = 0x06 (main.py line 19). -/
def PNS_ACK : Nat := 0x06

/-- PNS_NAK = 0x15 (main.py line 21). -/
def PNS_NAK : Nat := 0x15

/-- PnsRunControlData (main.py lines 53-81): the six fields stored by
    __init__; Python ints are unbounded, hence Int. -/
structure PnsRunControlData where
  led_red_pattern : Int
  led_amber_pattern : Int
  led_green_pattern : Int
  led_blue_pattern : Int
  led_white_pattern : Int
  buzzer_mode : Int
deriving DecidableEq, Repr

/-- PnsRunControlData.get_bytes (main.py lines 83-101):
    struct.pack('BBBBBB', red, amber, green, blue, white, buzzer). -/
def PnsRunControlData.get_bytes (self : PnsRunControlData) : Except PnsError (List Nat) := do
  let r ← packB self.led_red_pattern
  let a ← packB self.led_amber_pattern
  let g ← packB self.led_green_pattern
  let b ← packB self.led_blue_pattern
  let w ← packB self.led_white_pattern
  let z ← packB self.buzzer_mode
  return [r, a, g, b, w, z]

/-- PnsStatusData (main.py lines 104-127): stored fields _ledPattern and
    _buzzer as assigned by __init__. -/
structure PnsStatusData where
  _ledPattern : List Nat
  _buzzer : Nat
deriving DecidableEq, Repr

/-- PnsStatusData.__init__ (main.py lines 107-117):
    self._ledPattern = data[0:5] (slicing never raises);
    self._buzzer = int(data[5]) (IndexError when len(data) < 6). -/
def PnsStatusData.init (data : List Nat) : Except PnsError PnsStatusData := do
  let lp := data.take 5
  let bz ← bytesGet data 5
  return { _ledPattern := lp, _buzzer := bz }

/-- PnsStatusData.ledPattern property (main.py lines 119-122):
    returns self._ledPattern[:], a copy of the stored bytes. -/
def PnsStatusData.ledPattern (self : PnsStatusData) : List Nat :=
  bytesSliceAll self._ledPattern

/-- PnsStatusData.ledPattern property access with the object state
    threaded explicitly: the returned copy together with the object
    after the access (property access has no side effect on it). -/
def PnsStatusData.ledPatternAccess (self : PnsStatusData) : List Nat × PnsStatusData :=
  (bytesSliceAll self._ledPattern, self)

/-- PnsStatusData.buzzer property (main.py lines 124-127). -/
def PnsStatusData.buzzer (self : PnsStatusData) : Nat :=
  self._buzzer

/-- Send data of pns_run_control_command (main.py lines 238-244):
    struct.pack('>2ssxH', b'AB', b'S', 6) ++ run_control_data.get_bytes(). -/
def pns_run_control_send_data (run_control_data : PnsRunControlData) :
    Except PnsError (List Nat) := do
  let data ← run_control_data.get_bytes
  return pack_2ssxH PNS_PRODUCT_ID PNS_RUN_CONTROL_COMMAND 6 ++ data

/-- pns_run_control_command (main.py lines 222-251): build and send the
    frame, then raise ValueError if recv_data[0] == PNS_NAK. The reply
    recv_data is what the transport returned. -/
def pns_run_control_command (run_control_data : PnsRunControlData)
    (recv_data : List Nat) : Except PnsError Unit := do
  let _send_data ← pns_run_control_send_data run_control_data
  let b0 ← bytesGet recv_data 0
  if b0 = PNS_NAK then
    throw PnsError.negativeAcknowledge
  return ()

/-- Send data of pns_clear_command (main.py lines 260-265):
    struct.pack('>2ssxH', b'AB', b'C', 0). -/
def pns_clear_send_data : List Nat :=
  pack_2ssxH PNS_PRODUCT_ID PNS_CLEAR_COMMAND 0

/-- pns_clear_command (main.py lines 253-272). -/
def pns_clear_command (recv_data : List Nat) : Except PnsError Unit := do
  let b0 ← bytesGet recv_data 0
  if b0 = PNS_NAK then
    throw PnsError.negativeAcknowledge
  return ()

/-- Send data of pns_get_data_command (main.py lines 287-292):
    struct.pack('>2ssxH', b'AB', b'G', 0). -/
def pns_get_data_send_data : List Nat :=
  pack_2ssxH PNS_PRODUCT_ID PNS_GET_DATA_COMMAND 0

/-- pns_get_data_command (main.py lines 275-303): send the frame, raise
    ValueError if recv_data[0] == PNS_NAK, else build PnsStatusData from
    the raw reply. -/
def pns_get_data_command (recv_data : List Nat) : Except PnsError PnsStatusData := do
  let b0 ← bytesGet recv_data 0
  if b0 = PNS_NAK then
    throw PnsError.negativeAcknowledge
  PnsStatusData.init recv_data

/-- Modelled from the spec: re-parsing a wire frame against the layout of
    spec section 6 (ProductId at offsets 0-1, CommandId at offset 2,
    reserved pad at 3, big-endian DataLength at offsets 4-5, payload from
    offset 6). The source has no decoder for request frames; this is the
    comparison definition for the round-trip claim. -/
def parse_frame (frame : List Nat) : Option (List Nat × Nat × Nat × List Nat) :=
  if 6 ≤ frame.length then
    some (frame.take 2, frame.getD 2 0,
      frame.getD 4 0 * 256 + frame.getD 5 0, frame.drop 6)
  else
    none

/-- Python list indexing `argv[i]` for the argument strings of main. -/
def listGetStr (l : List String) (i : Nat) : Except PnsError String :=
  match l.get? i with
  | some s => Except.ok s
  | none => Except.error PnsError.indexError

/-- Python int() on a decimal argument string: ValueError when the
    string is not a number. -/
def pyIntParse (s : String) : Except PnsError Int :=
  match s.toInt? with
  | some n => Except.ok n
  | none => Except.error PnsError.valueError

/-- The body of main's try block (main.py lines 137-171): dispatch on
    args[1]. argv is sys.argv; recv_data is the reply the transport
    returns for the single command issued. The result collects the
    frames sent (printing of the status fields is pure output and
    omitted). An unknown discriminant falls through every branch and
    sends nothing. -/
def main_dispatch (argv : List String) (recv_data : List Nat) :
    Except PnsError (List (List Nat)) := do
  let argc := argv.length
  let a1 ← listGetStr argv 1
  if a1 = "S" then
    if 8 ≤ argc then do
      let v2 ← pyIntParse (← listGetStr argv 2)
      let v3 ← pyIntParse (← listGetStr argv 3)
      let v4 ← pyIntParse (← listGetStr argv 4)
      let v5 ← pyIntParse (← listGetStr argv 5)
      let v6 ← pyIntParse (← listGetStr argv 6)
      let v7 ← pyIntParse (← listGetStr argv 7)
      let run_control_data : PnsRunControlData := ⟨v2, v3, v4, v5, v6, v7⟩
      let frame ← pns_run_control_send_data run_control_data
      pns_run_control_command run_control_data recv_data
      return [frame]
    else
      return []
  else if a1 = "C" then do
    pns_clear_command recv_data
    return [pns_clear_send_data]
  else if a1 = "G" then do
    let _status ← pns_get_data_command recv_data
    return [pns_get_data_send_data]
  else
    return []

/-- Socket lifecycle calls observable in a run of main. -/
inductive SocketEvent where
  | openCall
  | closeCall
deriving DecidableEq, Repr

/-- main (main.py lines 130-175) with the socket lifecycle traced.
    socket_open is called before the try block, so when _sock.connect
    raises (openResult is an error) the exception propagates and the
    finally clause is never entered; once the try block is entered, its
    finally clause runs socket_close exactly once, whether the dispatch
    body returns normally or raises. Returns main's outcome and the
    trace of socket_open/socket_close calls. -/
def main_run (openResult : Except PnsError Unit) (argv : List String)
    (recv_data : List Nat) : Except PnsError Unit × List SocketEvent :=
  match openResult with
  | Except.error e => (Except.error e, [SocketEvent.openCall])
  | Except.ok _ =>
    let body : Except PnsError Unit :=
      match main_dispatch argv recv_data with
      | Except.ok _ => Except.ok ()
      | Except.error e => Except.error e
    (body, [SocketEvent.openCall, SocketEvent.closeCall])

/-! ## Helper lemmas -/

/-- Enumerated LED unit pattern codes PNS_RUN_CONTROL_LED_OFF through
    PNS_RUN_CONTROL_LED_NO_CHANGE (main.py lines 25-41). -/
def ledPatternValues : List Int := [0x00, 0x01, 0x02, 0x03, 0x04, 0x05, 0x06, 0x07, 0x09]

/-- Enumerated buzzer codes PNS_RUN_CONTROL_BUZZER_STOP, RING and
    NO_CHANGE (main.py lines 45-50). -/
def buzzerValues : List Int := [0x00, 0x01, 0x09]

theorem mem_ledPatternValues_bounds {v : Int} (h : v ∈ ledPatternValues) :
    0 ≤ v ∧ v ≤ 255 := by
  simp only [ledPatternValues, List.mem_cons, List.not_mem_nil, or_false] at h
  rcases h with rfl | rfl | rfl | rfl | rfl | rfl | rfl | rfl | rfl <;> norm_num

theorem mem_buzzerValues_bounds {v : Int} (h : v ∈ buzzerValues) :
    0 ≤ v ∧ v ≤ 255 := by
  simp only [buzzerValues, List.mem_cons, List.not_mem_nil, or_false] at h
  rcases h with rfl | rfl | rfl <;> norm_num

theorem init_eq_of_length (data : List Nat) (h : 6 ≤ data.length) :
    PnsStatusData.init data =
      Except.ok { _ledPattern := data.take 5, _buzzer := data.getD 5 0 } := by
  have h5 : 5 < data.length := by omega
  have hg : data[5]? = some data[5] := List.getElem?_eq_getElem h5
  simp [PnsStatusData.init, bytesGet, hg, List.getD, Bind.bind, Except.bind,
    pure, Except.pure]

theorem init_short (data : List Nat) (h : data.length < 6) :
    PnsStatusData.init data = Except.error PnsError.indexError := by
  have hg : data[5]? = none := by
    rw [List.getElem?_eq_none_iff]
    omega
  simp [PnsStatusData.init, bytesGet, hg, Bind.bind, Except.bind]

theorem get_bytes_eq (d : PnsRunControlData)
    (h1 : 0 ≤ d.led_red_pattern) (h2 : d.led_red_pattern ≤ 255)
    (h3 : 0 ≤ d.led_amber_pattern) (h4 : d.led_amber_pattern ≤ 255)
    (h5 : 0 ≤ d.led_green_pattern) (h6 : d.led_green_pattern ≤ 255)
    (h7 : 0 ≤ d.led_blue_pattern) (h8 : d.led_blue_pattern ≤ 255)
    (h9 : 0 ≤ d.led_white_pattern) (h10 : d.led_white_pattern ≤ 255)
    (h11 : 0 ≤ d.buzzer_mode) (h12 : d.buzzer_mode ≤ 255) :
    d.get_bytes = Except.ok [d.led_red_pattern.toNat, d.led_amber_pattern.toNat,
      d.led_green_pattern.toNat, d.led_blue_pattern.toNat,
      d.led_white_pattern.toNat, d.buzzer_mode.toNat] := by
  simp [PnsRunControlData.get_bytes, packB, h1, h2, h3, h4, h5, h6, h7, h8,
    h9, h10, h11, h12, Bind.bind, Except.bind, pure, Except.pure]

theorem parse_frame_run_control (x1 x2 x3 x4 x5 x6 : Nat) :
    parse_frame (pack_2ssxH PNS_PRODUCT_ID PNS_RUN_CONTROL_COMMAND 6 ++
        [x1, x2, x3, x4, x5, x6]) =
      some (PNS_PRODUCT_ID, PNS_RUN_CONTROL_COMMAND, 6, [x1, x2, x3, x4, x5, x6]) := by
  simp [parse_frame, pack_2ssxH, PNS_PRODUCT_ID, PNS_RUN_CONTROL_COMMAND, List.getD]

/-! ## Claim theorems -/

/-- C3 (confirmed): the encoded frames are bit-exact.
    RunControlData(1,0,2,0,9,1).encode() yields 01 00 02 00 09 01; the full
    RunControl frame sent is 41 42 53 00 00 06 01 00 02 00 09 01; the Clear
    frame is 41 42 43 00 00 00 and the GetData frame is 41 42 47 00 00 00,
    each with zero-length payload. -/
theorem C3_frame_exactness :
    (PnsRunControlData.mk 1 0 2 0 9 1).get_bytes =
      Except.ok [0x01, 0x00, 0x02, 0x00, 0x09, 0x01] ∧
    pns_run_control_send_data (PnsRunControlData.mk 1 0 2 0 9 1) =
      Except.ok [0x41, 0x42, 0x53, 0x00, 0x00, 0x06,
        0x01, 0x00, 0x02, 0x00, 0x09, 0x01] ∧
    pns_clear_send_data = [0x41, 0x42, 0x43, 0x00, 0x00, 0x00] ∧
    pns_get_data_send_data = [0x41, 0x42, 0x47, 0x00, 0x00, 0x00] :=
  ⟨rfl, rfl, rfl, rfl⟩

/-- C9 counterexample: the claim says encoding succeeds for every 6-tuple of
    integers, but struct.pack raises struct.error for a field value of 256
    (format 'B' requires 0 <= value <= 255), so get_bytes does not succeed. -/
theorem C9_counterexample :
    (PnsRunControlData.mk 256 0 0 0 0 0).get_bytes =
      Except.error PnsError.structError ∧
    (Except.error PnsError.structError :
      Except PnsError (List Nat)) ≠ Except.ok [0, 0, 0, 0, 0, 0] :=
  ⟨rfl, fun h => Except.noConfusion h⟩

/-- C9 (amended): RunControlData field values are not validated client-side
    against the enumerated pattern sets: for every 6-tuple of integers that
    fit a byte (0..255), including values outside {0..7,9} and {0,1,9},
    get_bytes succeeds and passes the values through as the 6 payload bytes. -/
theorem C9_pass_through (d : PnsRunControlData)
    (h1 : 0 ≤ d.led_red_pattern) (h2 : d.led_red_pattern ≤ 255)
    (h3 : 0 ≤ d.led_amber_pattern) (h4 : d.led_amber_pattern ≤ 255)
    (h5 : 0 ≤ d.led_green_pattern) (h6 : d.led_green_pattern ≤ 255)
    (h7 : 0 ≤ d.led_blue_pattern) (h8 : d.led_blue_pattern ≤ 255)
    (h9 : 0 ≤ d.led_white_pattern) (h10 : d.led_white_pattern ≤ 255)
    (h11 : 0 ≤ d.buzzer_mode) (h12 : d.buzzer_mode ≤ 255) :
    d.get_bytes = Except.ok [d.led_red_pattern.toNat, d.led_amber_pattern.toNat,
      d.led_green_pattern.toNat, d.led_blue_pattern.toNat,
      d.led_white_pattern.toNat, d.buzzer_mode.toNat] :=
  get_bytes_eq d h1 h2 h3 h4 h5 h6 h7 h8 h9 h10 h11 h12

/-- C9 witness: the tuple (8, 255, 100, 0, 0, 2) uses an LED code outside
    {0..7,9} and a buzzer code outside {0,1,9}, yet encodes by pass-through. -/
theorem C9_pass_through_witness :
    (PnsRunControlData.mk 8 255 100 0 0 2).get_bytes =
      Except.ok [8, 255, 100, 0, 0, 2] :=
  C9_pass_through (PnsRunControlData.mk 8 255 100 0 0 2) (by decide) (by decide)
    (by decide) (by decide) (by decide) (by decide) (by decide) (by decide)
    (by decide) (by decide) (by decide) (by decide)

/-- C2 (confirmed): for every non-empty reply, each of run_control, clear
    and get_data fails with NegativeAcknowledge exactly when the reply's
    first byte is 0x15; any other first byte (ACK or otherwise) passes the
    validation, so the ack-only commands succeed and get_data proceeds to
    decode (succeeding whenever the reply carries the 6 status bytes).
    The run_control hypothesis pins the frame build (the step before the
    reply exists) as successful. -/
theorem C2_nak_detection (recv_data : List Nat) (h : recv_data ≠ [])
    (d : PnsRunControlData) (frame : List Nat)
    (hd : pns_run_control_send_data d = Except.ok frame) :
    (pns_run_control_command d recv_data = Except.error PnsError.negativeAcknowledge ↔
      recv_data.getD 0 0 = PNS_NAK) ∧
    (pns_clear_command recv_data = Except.error PnsError.negativeAcknowledge ↔
      recv_data.getD 0 0 = PNS_NAK) ∧
    (pns_get_data_command recv_data = Except.error PnsError.negativeAcknowledge ↔
      recv_data.getD 0 0 = PNS_NAK) ∧
    (recv_data.getD 0 0 ≠ PNS_NAK →
      pns_run_control_command d recv_data = Except.ok () ∧
      pns_clear_command recv_data = Except.ok () ∧
      (6 ≤ recv_data.length → ∃ s, pns_get_data_command recv_data = Except.ok s)) := by
  match recv_data, h with
  | b0 :: rest, _ =>
    by_cases hnak : b0 = PNS_NAK
    · refine ⟨?_, ?_, ?_, fun hc => absurd hnak hc⟩ <;>
        simp [pns_run_control_command, pns_clear_command, pns_get_data_command,
          hd, bytesGet, hnak, Bind.bind, Except.bind, throw, throwThe,
          MonadExceptOf.throw, pure, Except.pure]
    · refine ⟨?_, ?_, ?_, fun _ => ⟨?_, ?_, fun hlen => ?_⟩⟩
      · simp [pns_run_control_command, hd, bytesGet, hnak, Bind.bind,
          Except.bind, pure, Except.pure]
      · simp [pns_clear_command, bytesGet, hnak, Bind.bind, Except.bind,
          pure, Except.pure]
      · rcases h5 : (b0 :: rest)[5]? with _ | b5 <;>
          simp [pns_get_data_command, PnsStatusData.init, bytesGet, hnak, h5,
            Bind.bind, Except.bind, pure, Except.pure]
      · simp [pns_run_control_command, hd, bytesGet, hnak, Bind.bind,
          Except.bind, pure, Except.pure]
      · simp [pns_clear_command, bytesGet, hnak, Bind.bind, Except.bind,
          pure, Except.pure]
      · refine ⟨PnsStatusData.mk ((b0 :: rest).take 5) ((b0 :: rest).getD 5 0), ?_⟩
        simp [pns_get_data_command, bytesGet, hnak, Bind.bind, Except.bind,
          pure, Except.pure, init_eq_of_length _ hlen]

/-- C2 witness: the single-byte NAK reply 0x15 at the RunControlData
    (1,0,2,0,9,1) whose frame build succeeds. -/
theorem C2_nak_detection_witness :
    (pns_run_control_command (PnsRunControlData.mk 1 0 2 0 9 1) [0x15] =
        Except.error PnsError.negativeAcknowledge ↔
      ([0x15] : List Nat).getD 0 0 = PNS_NAK) ∧
    (pns_clear_command [0x15] = Except.error PnsError.negativeAcknowledge ↔
      ([0x15] : List Nat).getD 0 0 = PNS_NAK) ∧
    (pns_get_data_command [0x15] = Except.error PnsError.negativeAcknowledge ↔
      ([0x15] : List Nat).getD 0 0 = PNS_NAK) ∧
    (([0x15] : List Nat).getD 0 0 ≠ PNS_NAK →
      pns_run_control_command (PnsRunControlData.mk 1 0 2 0 9 1) [0x15] =
        Except.ok () ∧
      pns_clear_command [0x15] = Except.ok () ∧
      (6 ≤ ([0x15] : List Nat).length →
        ∃ s, pns_get_data_command [0x15] = Except.ok s)) :=
  C2_nak_detection [0x15] (by decide) (PnsRunControlData.mk 1 0 2 0 9 1)
    [0x41, 0x42, 0x53, 0x00, 0x00, 0x06, 0x01, 0x00, 0x02, 0x00, 0x09, 0x01] rfl

/-- C4 (confirmed): for every RunControlData whose LED fields are in
    {0..7,9} and buzzer field in {0,1,9}, building the RunControl frame and
    re-parsing its header yields CommandId 0x53, DataLength 6 and the
    original payload bytes unchanged; in every frame built the DataLength
    field equals the payload's byte length (6 for RunControl, 0 for the
    empty Clear and GetData payloads). -/
theorem C4_round_trip (d : PnsRunControlData)
    (hr : d.led_red_pattern ∈ ledPatternValues)
    (ha : d.led_amber_pattern ∈ ledPatternValues)
    (hg : d.led_green_pattern ∈ ledPatternValues)
    (hb : d.led_blue_pattern ∈ ledPatternValues)
    (hw : d.led_white_pattern ∈ ledPatternValues)
    (hz : d.buzzer_mode ∈ buzzerValues) :
    ∃ payload frame, d.get_bytes = Except.ok payload ∧
      pns_run_control_send_data d = Except.ok frame ∧
      parse_frame frame =
        some (PNS_PRODUCT_ID, PNS_RUN_CONTROL_COMMAND, 6, payload) ∧
      payload.length = 6 ∧
      parse_frame pns_clear_send_data =
        some (PNS_PRODUCT_ID, PNS_CLEAR_COMMAND, 0, []) ∧
      parse_frame pns_get_data_send_data =
        some (PNS_PRODUCT_ID, PNS_GET_DATA_COMMAND, 0, []) := by
  obtain ⟨hr1, hr2⟩ := mem_ledPatternValues_bounds hr
  obtain ⟨ha1, ha2⟩ := mem_ledPatternValues_bounds ha
  obtain ⟨hg1, hg2⟩ := mem_ledPatternValues_bounds hg
  obtain ⟨hb1, hb2⟩ := mem_ledPatternValues_bounds hb
  obtain ⟨hw1, hw2⟩ := mem_ledPatternValues_bounds hw
  obtain ⟨hz1, hz2⟩ := mem_buzzerValues_bounds hz
  have hbytes := get_bytes_eq d hr1 hr2 ha1 ha2 hg1 hg2 hb1 hb2 hw1 hw2 hz1 hz2
  refine ⟨_, pack_2ssxH PNS_PRODUCT_ID PNS_RUN_CONTROL_COMMAND 6 ++
      [d.led_red_pattern.toNat, d.led_amber_pattern.toNat,
       d.led_green_pattern.toNat, d.led_blue_pattern.toNat,
       d.led_white_pattern.toNat, d.buzzer_mode.toNat],
    hbytes, ?_, parse_frame_run_control _ _ _ _ _ _, rfl, by decide, by decide⟩
  simp [pns_run_control_send_data, hbytes, Bind.bind, Except.bind, pure,
    Except.pure]

/-- C4 witness: the valid tuple (1,0,2,0,9,1). -/
theorem C4_round_trip_witness :
    ∃ payload frame,
      (PnsRunControlData.mk 1 0 2 0 9 1).get_bytes = Except.ok payload ∧
      pns_run_control_send_data (PnsRunControlData.mk 1 0 2 0 9 1) =
        Except.ok frame ∧
      parse_frame frame =
        some (PNS_PRODUCT_ID, PNS_RUN_CONTROL_COMMAND, 6, payload) ∧
      payload.length = 6 ∧
      parse_frame pns_clear_send_data =
        some (PNS_PRODUCT_ID, PNS_CLEAR_COMMAND, 0, []) ∧
      parse_frame pns_get_data_send_data =
        some (PNS_PRODUCT_ID, PNS_GET_DATA_COMMAND, 0, []) :=
  C4_round_trip (PnsRunControlData.mk 1 0 2 0 9 1) (by decide) (by decide)
    (by decide) (by decide) (by decide) (by decide)

/-- C5 counterexample: the 1-byte reply 0x15 is shorter than the 6 bytes
    get_data's status decode needs, yet get_data fails with
    NegativeAcknowledge, not with the claimed IncompleteResponse
    (out-of-range index): the NAK check runs before the length of the
    reply matters. -/
theorem C5_counterexample :
    pns_get_data_command [0x15] = Except.error PnsError.negativeAcknowledge ∧
    PnsError.negativeAcknowledge ≠ PnsError.indexError :=
  ⟨rfl, by decide⟩

/-- C5 (amended): a reply shorter than the minimum needed for the requested
    decode makes the operation fail — with an out-of-range index error (the
    spec's IncompleteResponse), raised at the attempt to index the missing
    byte, except that get_data on a short reply whose first byte is 0x15
    fails with NegativeAcknowledge instead; in particular StatusData
    construction from the 2-byte input 06 00 fails with the index error. -/
theorem C5_short_reply (recv_data : List Nat) (d : PnsRunControlData)
    (frame : List Nat) (hd : pns_run_control_send_data d = Except.ok frame) :
    (recv_data = [] →
      pns_run_control_command d recv_data = Except.error PnsError.indexError ∧
      pns_clear_command recv_data = Except.error PnsError.indexError ∧
      pns_get_data_command recv_data = Except.error PnsError.indexError) ∧
    (recv_data.length < 6 → recv_data.getD 0 0 ≠ PNS_NAK →
      pns_get_data_command recv_data = Except.error PnsError.indexError) ∧
    (recv_data.length < 6 → recv_data.getD 0 0 = PNS_NAK → recv_data ≠ [] →
      pns_get_data_command recv_data = Except.error PnsError.negativeAcknowledge) ∧
    PnsStatusData.init [0x06, 0x00] = Except.error PnsError.indexError := by
  refine ⟨?_, ?_, ?_, rfl⟩
  · rintro rfl
    exact ⟨by simp [pns_run_control_command, hd, bytesGet, Bind.bind,
      Except.bind], rfl, rfl⟩
  · intro hlen hnak
    rcases recv_data with _ | ⟨b0, rest⟩
    · rfl
    · have hb0 : ¬ b0 = PNS_NAK := hnak
      simp [pns_get_data_command, bytesGet, hb0, Bind.bind, Except.bind,
        pure, Except.pure, init_short _ hlen]
  · intro hlen hnak hne
    rcases recv_data with _ | ⟨b0, rest⟩
    · exact absurd rfl hne
    · have hb0 : b0 = PNS_NAK := hnak
      simp [pns_get_data_command, bytesGet, hb0, Bind.bind, Except.bind,
        throw, throwThe, MonadExceptOf.throw]

/-- C5 witness: the 2-byte reply 06 00 with the RunControlData
    (1,0,2,0,9,1) whose frame build succeeds. -/
theorem C5_short_reply_witness :
    (([0x06, 0x00] : List Nat) = [] →
      pns_run_control_command (PnsRunControlData.mk 1 0 2 0 9 1) [0x06, 0x00] =
        Except.error PnsError.indexError ∧
      pns_clear_command [0x06, 0x00] = Except.error PnsError.indexError ∧
      pns_get_data_command [0x06, 0x00] = Except.error PnsError.indexError) ∧
    (([0x06, 0x00] : List Nat).length < 6 →
      ([0x06, 0x00] : List Nat).getD 0 0 ≠ PNS_NAK →
      pns_get_data_command [0x06, 0x00] = Except.error PnsError.indexError) ∧
    (([0x06, 0x00] : List Nat).length < 6 →
      ([0x06, 0x00] : List Nat).getD 0 0 = PNS_NAK →
      ([0x06, 0x00] : List Nat) ≠ [] →
      pns_get_data_command [0x06, 0x00] =
        Except.error PnsError.negativeAcknowledge) ∧
    PnsStatusData.init [0x06, 0x00] = Except.error PnsError.indexError :=
  C5_short_reply [0x06, 0x00] (PnsRunControlData.mk 1 0 2 0 9 1)
    [0x41, 0x42, 0x53, 0x00, 0x00, 0x06, 0x01, 0x00, 0x02, 0x00, 0x09, 0x01] rfl

/-- C6 (confirmed): for every input of at least 6 bytes, StatusData
    construction extracts led_pattern = data[0:5] and buzzer = data[5];
    the concrete input 00 01 02 03 04 09 yields led_pattern [0,1,2,3,4]
    and buzzer 9; the ledPattern accessor returns a copy equal to the
    stored bytes and leaves the object state unchanged. -/
theorem C6_status_decode (data : List Nat) (h : 6 ≤ data.length) :
    ∃ s, PnsStatusData.init data = Except.ok s ∧
      s.ledPattern = data.take 5 ∧
      s.buzzer = data.getD 5 0 ∧
      s.ledPatternAccess = (s._ledPattern, s) ∧
      ∃ t, PnsStatusData.init [0x00, 0x01, 0x02, 0x03, 0x04, 0x09] =
          Except.ok t ∧
        t.ledPattern = [0x00, 0x01, 0x02, 0x03, 0x04] ∧ t.buzzer = 0x09 := by
  refine ⟨PnsStatusData.mk (data.take 5) (data.getD 5 0),
    init_eq_of_length data h, ?_, rfl, ?_,
    PnsStatusData.mk [0x00, 0x01, 0x02, 0x03, 0x04] 0x09, rfl, rfl, rfl⟩
  · simp [PnsStatusData.ledPattern, bytesSliceAll]
  · simp [PnsStatusData.ledPatternAccess, bytesSliceAll]

/-- C6 witness: the 7-byte input 00 01 02 03 04 09 05. -/
theorem C6_status_decode_witness :
    ∃ s, PnsStatusData.init [0x00, 0x01, 0x02, 0x03, 0x04, 0x09, 0x05] =
        Except.ok s ∧
      s.ledPattern = ([0x00, 0x01, 0x02, 0x03, 0x04, 0x09, 0x05] : List Nat).take 5 ∧
      s.buzzer = ([0x00, 0x01, 0x02, 0x03, 0x04, 0x09, 0x05] : List Nat).getD 5 0 ∧
      s.ledPatternAccess = (s._ledPattern, s) ∧
      ∃ t, PnsStatusData.init [0x00, 0x01, 0x02, 0x03, 0x04, 0x09] =
          Except.ok t ∧
        t.ledPattern = [0x00, 0x01, 0x02, 0x03, 0x04] ∧ t.buzzer = 0x09 :=
  C6_status_decode [0x00, 0x01, 0x02, 0x03, 0x04, 0x09, 0x05] (by decide)

/-- C10 (confirmed): StatusData construction depends only on the first 6
    bytes of its input: two inputs of length at least 6 that agree on bytes
    0 through 5 construct StatusData values with equal led pattern and
    buzzer fields; trailing reply bytes are ignored. -/
theorem C10_first_six_only (d1 d2 : List Nat) (h1 : 6 ≤ d1.length)
    (h2 : 6 ≤ d2.length) (hagree : d1.take 6 = d2.take 6) :
    ∃ s1 s2, PnsStatusData.init d1 = Except.ok s1 ∧
      PnsStatusData.init d2 = Except.ok s2 ∧
      s1._ledPattern = s2._ledPattern ∧ s1._buzzer = s2._buzzer := by
  refine ⟨_, _, init_eq_of_length d1 h1, init_eq_of_length d2 h2, ?_, ?_⟩
  · have h : (d1.take 6).take 5 = (d2.take 6).take 5 := by rw [hagree]
    simpa [List.take_take] using h
  · have e1 : (d1.take 6)[5]? = d1[5]? := by
      rw [List.getElem?_take]
      norm_num
    have e2 : (d2.take 6)[5]? = d2[5]? := by
      rw [List.getElem?_take]
      norm_num
    show d1.getD 5 0 = d2.getD 5 0
    rw [List.getD_eq_getElem?_getD, List.getD_eq_getElem?_getD, ← e1, ← e2,
      hagree]

/-- C10 witness: a 7-byte and a 6-byte input agreeing on bytes 0..5. -/
theorem C10_first_six_only_witness :
    ∃ s1 s2,
      PnsStatusData.init [0x01, 0x02, 0x03, 0x04, 0x05, 0x09, 0xFF] =
        Except.ok s1 ∧
      PnsStatusData.init [0x01, 0x02, 0x03, 0x04, 0x05, 0x09] =
        Except.ok s2 ∧
      s1._ledPattern = s2._ledPattern ∧ s1._buzzer = s2._buzzer :=
  C10_first_six_only [0x01, 0x02, 0x03, 0x04, 0x05, 0x09, 0xFF]
    [0x01, 0x02, 0x03, 0x04, 0x05, 0x09] (by decide) (by decide) (by decide)

/-- C1 counterexample: on the 7-byte reply 06 01 02 03 04 05 09, get_data
    reports the LED patterns from reply offsets 0..4 (so the first reported
    LED byte is the 0x06 at offset 0) and the buzzer from offset 5, not
    from offsets 1..5 and 6 as the claim states: the reported values differ
    from the bytes at the claimed offsets. -/
theorem C1_counterexample :
    pns_get_data_command [0x06, 0x01, 0x02, 0x03, 0x04, 0x05, 0x09] =
      Except.ok (PnsStatusData.mk [0x06, 0x01, 0x02, 0x03, 0x04] 0x05) ∧
    (PnsStatusData.mk [0x06, 0x01, 0x02, 0x03, 0x04] 0x05).ledPattern ≠
      [0x01, 0x02, 0x03, 0x04, 0x05] ∧
    (PnsStatusData.mk [0x06, 0x01, 0x02, 0x03, 0x04] 0x05).buzzer ≠ 0x09 :=
  ⟨rfl, by decide, by decide⟩

/-- C1 (amended): for every GetData reply accepted by validation, the LED
    pattern fields occupy reply offsets 0 through 4 (red, amber, green,
    blue, white) and the buzzer mode occupies reply offset 5 — the status
    body is the first 6 bytes of the raw reply — and the StatusData
    returned by get_data reports its five LED fields and its buzzer field
    from those offsets of the reply. -/
theorem C1_status_offsets (recv_data : List Nat) (h : 6 ≤ recv_data.length)
    (hnak : recv_data.getD 0 0 ≠ PNS_NAK) :
    ∃ s, pns_get_data_command recv_data = Except.ok s ∧
      s.ledPattern = recv_data.take 5 ∧
      s.buzzer = recv_data.getD 5 0 := by
  rcases recv_data with _ | ⟨b0, rest⟩
  · simp at h
  · have hb0 : ¬ b0 = PNS_NAK := hnak
    refine ⟨PnsStatusData.mk ((b0 :: rest).take 5) ((b0 :: rest).getD 5 0),
      ?_, ?_, rfl⟩
    · simp [pns_get_data_command, bytesGet, hb0, Bind.bind, Except.bind,
        pure, Except.pure, init_eq_of_length _ h]
    · simp [PnsStatusData.ledPattern, bytesSliceAll]

/-- C1 witness: the 7-byte reply 06 01 02 03 04 05 09. -/
theorem C1_status_offsets_witness :
    ∃ s, pns_get_data_command [0x06, 0x01, 0x02, 0x03, 0x04, 0x05, 0x09] =
        Except.ok s ∧
      s.ledPattern =
        ([0x06, 0x01, 0x02, 0x03, 0x04, 0x05, 0x09] : List Nat).take 5 ∧
      s.buzzer =
        ([0x06, 0x01, 0x02, 0x03, 0x04, 0x05, 0x09] : List Nat).getD 5 0 :=
  C1_status_offsets [0x06, 0x01, 0x02, 0x03, 0x04, 0x05, 0x09] (by decide)
    (by decide)

/-- C7 counterexample: when opening the connection fails (socket_open
    raises before the try block is entered), main never calls socket_close,
    so the close count is 0, not the claimed exactly once. -/
theorem C7_counterexample :
    (main_run (Except.error PnsError.osError) ["main.py", "C"] []).2.count
      SocketEvent.closeCall = 0 ∧ (0 : Nat) ≠ 1 :=
  ⟨rfl, by decide⟩

/-- C7 (amended): once the connection is open, socket_close is called
    exactly once on every exit path of the command dispatch — normal
    completion and every raised error alike — but when socket_open itself
    fails, socket_close is never called, because the open happens before
    the try/finally block. -/
theorem C7_close_on_exit (argv : List String) (recv_data : List Nat)
    (e : PnsError) :
    (main_run (Except.ok ()) argv recv_data).2.count SocketEvent.closeCall = 1 ∧
    (main_run (Except.error e) argv recv_data).2.count SocketEvent.closeCall = 0 :=
  ⟨rfl, rfl⟩

/-- C8 (confirmed): when the S command is selected with fewer than six
    integer arguments supplied (argc < 8), main's dispatch builds no frame,
    sends nothing and raises nothing: it returns normally with an empty
    list of sent frames. -/
theorem C8_silent_noop (argv : List String) (recv_data : List Nat)
    (h1 : argv[1]? = some "S") (h2 : argv.length < 8) :
    main_dispatch argv recv_data = Except.ok [] := by
  have h8 : ¬ 8 ≤ argv.length := by omega
  simp [main_dispatch, listGetStr, h1, h8, Bind.bind, Except.bind, pure,
    Except.pure]

/-- C8 witness: argv = [main.py, S, 1] supplies one of the six values. -/
theorem C8_silent_noop_witness :
    main_dispatch ["main.py", "S", "1"] [] = Except.ok [] :=
  C8_silent_noop ["main.py", "S", "1"] [] rfl (by decide)
